import Mathlib

/-!
Shallow embedding of `run.py` from the telegram-to-cloud repository.

The program is a Telegram bot built on python-telegram-bot's
`ConversationHandler` (v12 semantics, `use_context=True`).  We embed:

* module-level startup (`BOT_TOKEN` / `APPROVED_USER_IDS` handling,
  `run.py:20-31`),
* the four handlers `start`, `upload_to`, `upload_file`, `cancel`
  (`run.py:40-119`),
* the dispatch loop of the `ConversationHandler` configured in `main`
  (`run.py:133-142`): entry point `/start`, state `UPLOAD_TO` with a
  `^(S3|GDrive)$` text handler, state `UPLOAD_FILE` with a
  `Filters.document.image | Filters.video | Filters.photo` handler, and the
  `/cancel` fallback.  `allow_reentry` is left at its default `False`, so
  entry points are only consulted when the user has no active conversation.
  A handler that raises is caught at the dispatch boundary: the v12
  dispatcher passes the exception to the error handlers registered with
  `dp.add_error_handler` — here `error` (`run.py:122-125`, registered at
  `run.py:145`), which logs the update/error and replies a generic apology —
  and the conversation state is not updated.

Side effects (log lines, chat replies, file downloads, backend upload calls
and local-file removals) are recorded as an explicit trace of `Effect`s.
Conversation state and `context.user_data["uploader"]` are per-user, so the
model tracks a single user's `UserState`.

`storages.py` is part of the repository but not available; `build_uploader`
and the uploader's `upload_file` method are modelled from the spec (they are
marked as such below).
-/

namespace Run

/-- Storage destinations offered by the menu in `start` (`run.py:46`). -/
inductive Backend
  | S3
  | GDrive
deriving DecidableEq

/-- A Telegram document attachment: original file name and mime type. -/
structure TDocument where
  file_name : String
  mime_type : String
deriving DecidableEq

/-- An inbound Telegram message, restricted to the fields `run.py` reads:
`text`, `document`, `video`, `photo` (presence of the latter two as Booleans)
and the local path that `file.download()` returns for its attachment. -/
structure Message where
  text : Option String
  document : Option TDocument
  video : Bool
  photo : Bool
  downloadPath : String
deriving DecidableEq

/-- Conversation states `UPLOAD_TO, UPLOAD_FILE = range(2)` (`run.py:33`). -/
inductive ConvState
  | UPLOAD_TO
  | UPLOAD_FILE
deriving DecidableEq

/-- Observable side effects of the program, recorded as a trace. -/
inductive Effect
  | log (msg : String)
  | reply (msg : String)
  | download (path : String)
  | uploadCall (b : Backend) (path : String)
  | removeLocal (path : String)
deriving DecidableEq

/-- Value returned by a handler to the `ConversationHandler`:
a new state, Python `None` (state kept), or `ConversationHandler.END`. -/
inductive HandlerResult
  | toState (s : ConvState)
  | keep
  | endConv
deriving DecidableEq

/-- Outcome of running one handler: the effects it performed, `none` for the
result when the handler raised an exception, and the (possibly updated)
`context.user_data["uploader"]` slot. -/
structure HOut where
  effects : List Effect
  result : Option HandlerResult
  uploader : Option Backend
deriving DecidableEq

/-- Per-user dispatcher state: the `ConversationHandler`'s conversation entry
for this user (`none` = no active session) and `user_data["uploader"]`. -/
structure UserState where
  conv : Option ConvState
  uploader : Option Backend
deriving DecidableEq

/-! ## Reply texts (`run.py` literals) -/

/-- Menu reply of `start` (`run.py:48`). -/
def menuText : String := "Choose a storage service.\nSend /cancel to stop.\n\n"

/-- Ready reply of `upload_to` (`run.py:64-65`). -/
def readyText (opt : String) : String :=
  "I will upload files that you send me to " ++ opt ++
    ". I'm ready to receive files. " ++
    "\nMake sure to send as -file attachments- so that the images/videos are not compressed."

/-- Photo warning reply (`run.py:93-94`). -/
def photoWarningText : String :=
  "⚠️ Photo not stored. Please only use the -file attachment- option when sending images, " ++
    "otherwise they will be compressed."

/-- Unsupported-type reply (`run.py:96`). -/
def unsupportedText : String := "Unsupported file type."

/-- Receipt reply (`run.py:103`). -/
def receivedText (fname : String) : String := "File received.\n" ++ fname

/-- Success reply (`run.py:108`). -/
def uploadedText : String := "File uploaded."

/-- Farewell reply of `cancel` (`run.py:117`). -/
def farewellText : String := "Finished. Reply /start to start again."

/-- Generic apology reply of the registered error handler (`run.py:125`). -/
def errorReplyText : String := "I encountered an error."

/-- `error` (`run.py:122-125`), registered with `dp.add_error_handler`
(`run.py:145`) and invoked by the v12 dispatcher when a handler raises: it
logs the update and the error (the f-string interpolates their Python reprs,
abstracted here as a fixed tag) and replies the generic apology. -/
def errorHandler : List Effect :=
  [Effect.log "Update caused error", Effect.reply errorReplyText]

/-- `_user_info_text` (`run.py:36-37`). -/
def user_info_text (firstName : String) (id : Int) : String :=
  firstName ++ " (id: " ++ toString id ++ ")"

/-! ## Module-level startup (`run.py:20-31`) -/

/-- Result of loading the module: exit via `quit()` on a missing token,
crash with `ValueError` on a malformed `APPROVED_USER_IDS`, or run with the
parsed allow-list (`none` when the variable is unset or empty, in which case
the name `APPROVED_USERS` is never assigned). -/
inductive LoadOutcome
  | exitNoToken
  | crashBadAllowList
  | running (approvedUsers : Option (List Int))
deriving DecidableEq

/-- `list(map(int, s.split(",")))` (`run.py:28`); `none` models the
`ValueError` raised by `int` on a malformed entry. -/
def parseIntList (s : String) : Option (List Int) :=
  (s.splitOn ",").mapM String.toInt?

/-- Module load: the `BOT_TOKEN` guard (`run.py:21-24`) and the
`APPROVED_USER_IDS` parsing (`run.py:26-31`). -/
def moduleLoad (botToken : Option String) (approvedEnv : Option String) :
    List Effect × LoadOutcome :=
  match botToken with
  | none => ([Effect.log "No bot token provided. Exiting."], LoadOutcome.exitNoToken)
  | some _ =>
    match approvedEnv with
    | none =>
      ([Effect.log "No approved user restrictions supplied. All users will be approved."],
        LoadOutcome.running none)
    | some s =>
      if s = "" then
        ([Effect.log "No approved user restrictions supplied. All users will be approved."],
          LoadOutcome.running none)
      else
        match parseIntList s with
        | none => ([], LoadOutcome.crashBadAllowList)
        | some l =>
          ([Effect.log ("Approved user list restricted to " ++ toString l)],
            LoadOutcome.running (some l))

/-! ## Attachment classification (the `if`/`elif` chain of `upload_file`,
`run.py:84-98`) -/

/-- Kind of an inbound attachment. -/
inductive AKind
  | document
  | video
  | photo
  | unsupported
deriving DecidableEq

/-- Classification result: the kind together with `file_name_from_user`
(initialised to `""` at `run.py:83`). -/
structure AttachmentResult where
  kind : AKind
  displayName : String
deriving DecidableEq

/-- The attachment classification chain of `upload_file` (`run.py:84-98`):
`document` first (display name = the document's `file_name`), then `video`
(fixed placeholder `"Video file."`), then `photo`, else unsupported. -/
def classify (m : Message) : AttachmentResult :=
  match m.document with
  | some d => ⟨AKind.document, d.file_name⟩
  | none =>
    if m.video then ⟨AKind.video, "Video file."⟩
    else if m.photo then ⟨AKind.photo, ""⟩
    else ⟨AKind.unsupported, ""⟩

/-! ## storages.py (modelled from the spec) -/

/-- Modelled from the spec: `storages.build_uploader` is in `storages.py`,
which is not under `src/`.  Per spec §4.4, `build(label)` constructs the
backend for a known label and fails with `UnknownBackendKind` otherwise;
the labels are the menu entries `S3` and `GDrive`. -/
def build_uploader (label : String) : Option Backend :=
  if label = "S3" then some Backend.S3
  else if label = "GDrive" then some Backend.GDrive
  else none

/-- Modelled from the spec: the uploader's `upload_file(localPath) -> bool`
lives in `storages.py`, which is not under `src/`.  Per spec §4.4 it returns
a Boolean (`oracle` supplies the backend-reported outcome), and per spec §5
the local temporary file is cleaned up after the upload attempt regardless
of success or failure, on every exit path. -/
def uploader_upload_file (oracle : Backend → String → Bool) (b : Backend)
    (path : String) : List Effect × Bool :=
  ([Effect.uploadCall b path, Effect.removeLocal path], oracle b path)

/-! ## Handlers (`run.py:40-119`) -/

/-- `start` (`run.py:40-55`).  When `approvedUsers` is `none` (unset or empty
`APPROVED_USER_IDS`), the name `APPROVED_USERS` was never assigned at module
level, so evaluating `user.id in APPROVED_USERS` at `run.py:45` raises
`NameError`: the handler ends with no reply and no returned state. -/
def start (approvedUsers : Option (List Int)) (uid : Int) (uname : String)
    (userData : Option Backend) : HOut :=
  let info := user_info_text uname uid
  let initLog := Effect.log (info ++ " initiated a conversation with /start")
  match approvedUsers with
  | none => ⟨[initLog], none, userData⟩
  | some l =>
    if uid ∈ l then
      ⟨[initLog, Effect.reply menuText], some (HandlerResult.toState ConvState.UPLOAD_TO),
        userData⟩
    else
      ⟨[initLog, Effect.log (info ++ " found to be not authorized."),
          Effect.reply (info ++ " is not authorized.")],
        some HandlerResult.keep, userData⟩

/-- `upload_to` (`run.py:58-68`): stores `build_uploader(text)` in
`user_data["uploader"]`, replies ready, returns `UPLOAD_FILE`.  An unknown
label would raise inside `build_uploader` (spec §4.4) before any reply. -/
def upload_to (m : Message) (uid : Int) (uname : String)
    (userData : Option Backend) : HOut :=
  let info := user_info_text uname uid
  match m.text with
  | none => ⟨[], none, userData⟩
  | some t =>
    match build_uploader t with
    | none => ⟨[], none, userData⟩
    | some b =>
      ⟨[Effect.log (info ++ " selected upload to " ++ t ++ " option."),
          Effect.reply (readyText t)],
        some (HandlerResult.toState ConvState.UPLOAD_FILE), some b⟩

/-- The document/video tail of `upload_file` (`run.py:100-110`): download the
file, log, reply "File received.", then call the uploader from
`user_data["uploader"]` (a missing key would raise `KeyError` at
`run.py:105`, after the receipt reply) and reply "File uploaded." only when
the call returns true. -/
def processFile (oracle : Backend → String → Bool) (m : Message) (fname : String)
    (info : String) (userData : Option Backend) : HOut :=
  let path := m.downloadPath
  let pre : List Effect :=
    [Effect.download path,
      Effect.log ("File downloaded from " ++ info ++ ": " ++ path),
      Effect.reply (receivedText fname)]
  match userData with
  | none => ⟨pre, none, userData⟩
  | some b =>
    let call := uploader_upload_file oracle b path
    ⟨pre ++ call.1 ++ (if call.2 then [Effect.reply uploadedText] else []),
      some (HandlerResult.toState ConvState.UPLOAD_FILE), userData⟩

/-- `upload_file` (`run.py:71-110`), branching on the classification chain.
Every branch returns `UPLOAD_FILE` (the photo and unsupported branches skip
the `if file:` block because `file` stays `None`). -/
def upload_file (oracle : Backend → String → Bool) (m : Message) (uid : Int)
    (uname : String) (userData : Option Backend) : HOut :=
  let info := user_info_text uname uid
  match classify m with
  | ⟨AKind.document, fname⟩ => processFile oracle m fname info userData
  | ⟨AKind.video, fname⟩ => processFile oracle m fname info userData
  | ⟨AKind.photo, _⟩ =>
    ⟨[Effect.log (info ++ " attempted to upload a photo without attaching as a file."),
        Effect.reply photoWarningText],
      some (HandlerResult.toState ConvState.UPLOAD_FILE), userData⟩
  | ⟨AKind.unsupported, _⟩ =>
    ⟨[Effect.reply unsupportedText,
        Effect.log ("Unsupported file type uploaded by " ++ info ++ ". Check filters.")],
      some (HandlerResult.toState ConvState.UPLOAD_FILE), userData⟩

/-- `cancel` (`run.py:113-119`): farewell reply, returns
`ConversationHandler.END`. -/
def cancel (uid : Int) (uname : String) (userData : Option Backend) : HOut :=
  let info := user_info_text uname uid
  ⟨[Effect.log ("User " ++ info ++ " canceled the conversation."),
      Effect.reply farewellText],
    some HandlerResult.endConv, userData⟩

/-! ## ConversationHandler dispatch (`run.py:133-142`) -/

/-- `CommandHandler(name, _)` match: the message text is the command. -/
def isCommand (name : String) (m : Message) : Bool :=
  m.text == some ("/" ++ name)

/-- `Filters.regex('^(S3|GDrive)$')` on the `UPLOAD_TO` state
(`run.py:137`). -/
def matchesBackendRegex (m : Message) : Bool :=
  match m.text with
  | some t => t == "S3" || t == "GDrive"
  | none => false

/-- `Filters.document.image | Filters.video | Filters.photo` on the
`UPLOAD_FILE` state (`run.py:138`): an image-mime document, a video, or a
photo. -/
def matchesUploadFilter (m : Message) : Bool :=
  (match m.document with
    | some d => d.mime_type.startsWith "image/"
    | none => false) || m.video || m.photo

/-- `ConversationHandler.update_state`: `END` deletes the conversation entry,
`None` keeps it, an integer state replaces it. -/
def applyConv (c : Option ConvState) : HandlerResult → Option ConvState
  | HandlerResult.toState s => some s
  | HandlerResult.keep => c
  | HandlerResult.endConv => none

/-- Fold a handler's outcome into the user state.  When the handler raised
(`result = none`), the v12 dispatcher passes the exception to the registered
error handler (`error`, `run.py:122-125`/`145`), which logs and replies
"I encountered an error."; the conversation state is left untouched
(`update_state` is never reached) and `user_data` mutations made before the
raise persist. -/
def finishHandler (st : UserState) (h : HOut) : UserState × List Effect :=
  match h.result with
  | some r => (⟨applyConv st.conv r, h.uploader⟩, h.effects)
  | none => (⟨st.conv, h.uploader⟩, h.effects ++ errorHandler)

/-- One step of the dispatcher for one user's update, following v12
`ConversationHandler.check_update` with `allow_reentry = False`: with no
active conversation only the `/start` entry point is consulted; with an
active conversation the current state's handlers are tried first and the
`/cancel` fallback afterwards; an unmatched update is dropped. -/
def dispatch (approved : Option (List Int)) (oracle : Backend → String → Bool)
    (uid : Int) (uname : String) (st : UserState) (m : Message) :
    UserState × List Effect :=
  match st.conv with
  | none =>
    if isCommand "start" m then finishHandler st (start approved uid uname st.uploader)
    else (st, [])
  | some ConvState.UPLOAD_TO =>
    if matchesBackendRegex m then finishHandler st (upload_to m uid uname st.uploader)
    else if isCommand "cancel" m then finishHandler st (cancel uid uname st.uploader)
    else (st, [])
  | some ConvState.UPLOAD_FILE =>
    if matchesUploadFilter m then
      finishHandler st (upload_file oracle m uid uname st.uploader)
    else if isCommand "cancel" m then finishHandler st (cancel uid uname st.uploader)
    else (st, [])

/-- Run a sequence of inbound updates for one user, concatenating the effect
traces. -/
def runEvents (approved : Option (List Int)) (oracle : Backend → String → Bool)
    (uid : Int) (uname : String) (st : UserState) : List Message → UserState × List Effect
  | [] => (st, [])
  | m :: ms =>
    let step := dispatch approved oracle uid uname st m
    let rest := runEvents approved oracle uid uname step.1 ms
    (rest.1, step.2 ++ rest.2)

/-! ## Message constructors for concrete scenarios -/

/-- A plain text message (commands, backend labels). -/
def textMsg (t : String) : Message := ⟨some t, none, false, false, ""⟩

/-- A document attachment. -/
def docMsg (fname mime path : String) : Message := ⟨none, some ⟨fname, mime⟩, false, false, path⟩

/-- A video attachment. -/
def videoMsg (path : String) : Message := ⟨none, none, true, false, path⟩

/-- An inline (non-attachment) photo. -/
def photoMsg : Message := ⟨none, none, false, true, ""⟩

/-- Predicate selecting backend upload calls from an effect trace. -/
def isUploadCallEff : Effect → Bool
  | Effect.uploadCall _ _ => true
  | _ => false

/-! ## Helper lemmas -/

theorem receivedText_length (fname : String) :
    (receivedText fname).length = 15 + fname.length := by
  have h15 : ("File received.\n" : String).length = 15 := rfl
  simp [receivedText, String.length_append, h15]

theorem receivedText_ne_uploadedText (fname : String) :
    receivedText fname ≠ uploadedText := by
  intro h
  have h1 := congrArg String.length h
  rw [receivedText_length] at h1
  have h2 : uploadedText.length = 14 := rfl
  rw [h2] at h1
  omega

theorem processFile_effects (oracle : Backend → String → Bool) (m : Message)
    (fname info : String) (b : Backend) :
    (processFile oracle m fname info (some b)).effects =
      [Effect.download m.downloadPath,
        Effect.log ("File downloaded from " ++ info ++ ": " ++ m.downloadPath),
        Effect.reply (receivedText fname),
        Effect.uploadCall b m.downloadPath,
        Effect.removeLocal m.downloadPath] ++
      (if oracle b m.downloadPath then [Effect.reply uploadedText] else []) := by
  simp [processFile, uploader_upload_file]

theorem upload_file_doc_or_video (oracle : Backend → String → Bool) (m : Message)
    (uid : Int) (uname : String) (ud : Option Backend)
    (h : (∃ d, m.document = some d) ∨ (m.document = none ∧ m.video = true)) :
    upload_file oracle m uid uname ud =
      processFile oracle m (classify m).displayName (user_info_text uname uid) ud := by
  rcases h with ⟨d, hd⟩ | ⟨hd, hv⟩
  · have hcl : classify m = ⟨AKind.document, d.file_name⟩ := by
      simp [classify, hd]
    simp [upload_file, hcl]
  · have hcl : classify m = ⟨AKind.video, "Video file."⟩ := by
      simp [classify, hd, hv]
    simp [upload_file, hcl]

/-! ## Claim theorems -/

/-- C9: when the bot credential is absent, module load logs a warning and
terminates via `quit()` before any dispatching; when a credential is present,
startup is never terminated by the missing-credential check. -/
theorem c9_missing_token_exits :
    (∀ env, moduleLoad none env =
      ([Effect.log "No bot token provided. Exiting."], LoadOutcome.exitNoToken)) ∧
    (∀ tok env, (moduleLoad (some tok) env).2 ≠ LoadOutcome.exitNoToken) := by
  constructor
  · intro env; rfl
  · intro tok env
    cases env with
    | none => simp [moduleLoad]
    | some s =>
      simp only [moduleLoad]
      split
      · simp
      · cases h : parseIntList s <;> simp [h]

/-- C1 fails on the code: with `TELEGRAM_BOT_TOKEN` set and no allow-list
configured (open mode), `start` evaluates `user.id in APPROVED_USERS` with
the name `APPROVED_USERS` unassigned (`run.py:26-31` only assigns it when the
list is non-empty), raising `NameError`; the dispatcher hands the exception
to the registered `error` handler, so user 1's `/start` is answered with the
generic "I encountered an error." reply — not the backend menu — and no
session is created, contradicting the claimed open-mode approval and the
code's own log line "All users will be approved." -/
theorem c1_open_mode_start_raises :
    moduleLoad (some "tok") none =
      ([Effect.log "No approved user restrictions supplied. All users will be approved."],
        LoadOutcome.running none) ∧
    dispatch none (fun _ _ => true) 1 "Alice" ⟨none, none⟩ (textMsg "/start") =
      (⟨none, none⟩,
        [Effect.log "Alice (id: 1) initiated a conversation with /start",
          Effect.log "Update caused error",
          Effect.reply errorReplyText]) ∧
    Effect.reply menuText ∉
      (dispatch none (fun _ _ => true) 1 "Alice" ⟨none, none⟩ (textMsg "/start")).2 ∧
    (dispatch none (fun _ _ => true) 1 "Alice" ⟨none, none⟩
      (textMsg "/start")).1.conv = none := by
  refine ⟨rfl, rfl, ?_, rfl⟩
  decide

/-- C2 counterexample: authorized user 10 sends `/start`, chooses S3, sends
`/start` again and then `GDrive`.  With `allow_reentry` at its default
`False`, the second `/start` (and the following `GDrive` text) match no
handler, so the session is still in `UPLOAD_FILE` bound to S3 — not replaced
and not bound to the most recently chosen backend — and the second `/start`
produces no effects at all (no new menu). -/
theorem c2_counterexample :
    (runEvents (some [10]) (fun _ _ => true) 10 "Ann" ⟨none, none⟩
        [textMsg "/start", textMsg "S3", textMsg "/start", textMsg "GDrive"]).1 =
      ⟨some ConvState.UPLOAD_FILE, some Backend.S3⟩ ∧
    (⟨some ConvState.UPLOAD_FILE, some Backend.S3⟩ : UserState).uploader ≠
      some Backend.GDrive ∧
    (dispatch (some [10]) (fun _ _ => true) 10 "Ann"
        ⟨some ConvState.UPLOAD_FILE, some Backend.S3⟩ (textMsg "/start")).2 = [] := by
  refine ⟨rfl, ?_, rfl⟩
  decide

/-- C2 amended: re-sending `/start` during an active session is not routed to
any handler (`allow_reentry` is left `False`), so the dispatcher leaves the
user's single session completely unchanged — same state, backend binding not
cleared, still bound to the previously chosen backend — and emits no effects;
in particular no second session is created. -/
theorem c2_second_start_ignored
    (approved : Option (List Int)) (oracle : Backend → String → Bool)
    (uid : Int) (uname : String) (cs : ConvState) (up : Option Backend)
    (m : Message) (ht : m.text = some "/start") (hd : m.document = none)
    (hv : m.video = false) (hp : m.photo = false) :
    dispatch approved oracle uid uname ⟨some cs, up⟩ m = (⟨some cs, up⟩, []) := by
  have h1 : matchesBackendRegex m = false := by
    simp only [matchesBackendRegex, ht]
    decide
  have h2 : matchesUploadFilter m = false := by
    simp [matchesUploadFilter, hd, hv, hp]
  have h3 : isCommand "cancel" m = false := by
    simp only [isCommand, ht]
    decide
  cases cs <;> simp [dispatch, h1, h2, h3]

/-- C2 amended claim at a concrete input: user 10's session in
`UPLOAD_FILE` bound to S3 is unchanged by a second `/start`. -/
theorem c2_second_start_ignored_witness :
    dispatch (some [10]) (fun _ _ => true) 10 "Ann"
        ⟨some ConvState.UPLOAD_FILE, some Backend.S3⟩ (textMsg "/start") =
      (⟨some ConvState.UPLOAD_FILE, some Backend.S3⟩, []) :=
  c2_second_start_ignored (some [10]) (fun _ _ => true) 10 "Ann"
    ConvState.UPLOAD_FILE (some Backend.S3) (textMsg "/start") rfl rfl rfl rfl

theorem dispatch_conv_none_of_not_approved (l : List Int)
    (oracle : Backend → String → Bool) (uid : Int) (uname : String)
    (st : UserState) (m : Message) (hst : st.conv = none) (h : uid ∉ l) :
    ((dispatch (some l) oracle uid uname st m).1).conv = none := by
  cases st with
  | mk conv upl =>
    simp only at hst
    subst hst
    by_cases hc : isCommand "start" m = true
    · simp [dispatch, hc, start, finishHandler, applyConv, h]
    · simp [dispatch, hc]

theorem runEvents_conv_none_of_not_approved (l : List Int)
    (oracle : Backend → String → Bool) (uid : Int) (uname : String) (h : uid ∉ l) :
    ∀ (ms : List Message) (st : UserState), st.conv = none →
      ((runEvents (some l) oracle uid uname st ms).1).conv = none
  | [], _, hst => hst
  | m :: ms, st, hst =>
    runEvents_conv_none_of_not_approved l oracle uid uname h ms
      (dispatch (some l) oracle uid uname st m).1
      (dispatch_conv_none_of_not_approved l oracle uid uname st m hst h)

/-- C5: with a configured allow-list not containing the user, `/start` from
the no-session state is answered with the "... is not authorized." reply and
creates no session, and no sequence of inbound updates ever moves that user
out of the no-session state. -/
theorem c5_unauthorized_start_no_session (l : List Int) (uid : Int)
    (uname : String) (oracle : Backend → String → Bool) (up : Option Backend)
    (h : uid ∉ l) :
    Effect.reply (user_info_text uname uid ++ " is not authorized.") ∈
      (dispatch (some l) oracle uid uname ⟨none, up⟩ (textMsg "/start")).2 ∧
    (dispatch (some l) oracle uid uname ⟨none, up⟩ (textMsg "/start")).1.conv = none ∧
    ∀ ms : List Message,
      ((runEvents (some l) oracle uid uname ⟨none, up⟩ ms).1).conv = none := by
  have hc : isCommand "start" (textMsg "/start") = true := rfl
  refine ⟨?_, ?_, ?_⟩
  · simp [dispatch, hc, start, finishHandler, h]
  · exact dispatch_conv_none_of_not_approved l oracle uid uname _ _ rfl h
  · intro ms
    exact runEvents_conv_none_of_not_approved l oracle uid uname h ms _ rfl

/-- C5 at a concrete input: user 7 against allow-list `[10]`. -/
theorem c5_unauthorized_start_no_session_witness :
    (7 : Int) ∉ ([10] : List Int) ∧
    Effect.reply (user_info_text "Bob" 7 ++ " is not authorized.") ∈
      (dispatch (some [10]) (fun _ _ => true) 7 "Bob" ⟨none, none⟩
        (textMsg "/start")).2 ∧
    ((runEvents (some [10]) (fun _ _ => true) 7 "Bob" ⟨none, none⟩
        [textMsg "/start", textMsg "S3", photoMsg]).1).conv = none :=
  ⟨by decide,
    (c5_unauthorized_start_no_session [10] 7 "Bob" (fun _ _ => true) none
      (by decide)).1,
    (c5_unauthorized_start_no_session [10] 7 "Bob" (fun _ _ => true) none
      (by decide)).2.2 [textMsg "/start", textMsg "S3", photoMsg]⟩

/-- C4: an inline (non-attachment) photo handled in `RECEIVING_FILES`
(`UPLOAD_FILE`) gets the photo-compression warning reply, no upload call is
issued to any backend and nothing is downloaded, and the session stays in
`UPLOAD_FILE` with its backend binding unchanged. -/
theorem c4_inline_photo_no_upload (approved : Option (List Int))
    (oracle : Backend → String → Bool) (uid : Int) (uname : String)
    (up : Option Backend) (m : Message) (hd : m.document = none)
    (hv : m.video = false) (hp : m.photo = true) :
    Effect.reply photoWarningText ∈
      (dispatch approved oracle uid uname ⟨some ConvState.UPLOAD_FILE, up⟩ m).2 ∧
    (∀ b p, Effect.uploadCall b p ∉
      (dispatch approved oracle uid uname ⟨some ConvState.UPLOAD_FILE, up⟩ m).2) ∧
    (∀ p, Effect.download p ∉
      (dispatch approved oracle uid uname ⟨some ConvState.UPLOAD_FILE, up⟩ m).2) ∧
    (dispatch approved oracle uid uname ⟨some ConvState.UPLOAD_FILE, up⟩ m).1 =
      ⟨some ConvState.UPLOAD_FILE, up⟩ := by
  have hcl : classify m = ⟨AKind.photo, ""⟩ := by
    simp [classify, hd, hv, hp]
  have hf : matchesUploadFilter m = true := by
    simp [matchesUploadFilter, hd, hv, hp]
  have hdis : dispatch approved oracle uid uname ⟨some ConvState.UPLOAD_FILE, up⟩ m =
      (⟨some ConvState.UPLOAD_FILE, up⟩,
        [Effect.log (user_info_text uname uid ++
            " attempted to upload a photo without attaching as a file."),
          Effect.reply photoWarningText]) := by
    simp [dispatch, hf, upload_file, hcl, finishHandler, applyConv]
  rw [hdis]
  refine ⟨by simp, ?_, ?_, rfl⟩
  · intro b p
    simp
  · intro p
    simp

/-- C4 at a concrete input: an inline photo from user 10 with an S3-bound
session. -/
theorem c4_inline_photo_no_upload_witness :
    Effect.reply photoWarningText ∈
      (dispatch (some [10]) (fun _ _ => true) 10 "Ann"
        ⟨some ConvState.UPLOAD_FILE, some Backend.S3⟩ photoMsg).2 ∧
    (∀ b p, Effect.uploadCall b p ∉
      (dispatch (some [10]) (fun _ _ => true) 10 "Ann"
        ⟨some ConvState.UPLOAD_FILE, some Backend.S3⟩ photoMsg).2) ∧
    (∀ p, Effect.download p ∉
      (dispatch (some [10]) (fun _ _ => true) 10 "Ann"
        ⟨some ConvState.UPLOAD_FILE, some Backend.S3⟩ photoMsg).2) ∧
    (dispatch (some [10]) (fun _ _ => true) 10 "Ann"
        ⟨some ConvState.UPLOAD_FILE, some Backend.S3⟩ photoMsg).1 =
      ⟨some ConvState.UPLOAD_FILE, some Backend.S3⟩ :=
  c4_inline_photo_no_upload (some [10]) (fun _ _ => true) 10 "Ann"
    (some Backend.S3) photoMsg rfl rfl rfl

/-- C6: the classifier (the `if`/`elif` chain of `upload_file`) is a total
function producing exactly one result per message, with first-match
precedence document > video > inline photo > unsupported; the document
branch uses the document's original `file_name` as display name and the
video branch the fixed placeholder `"Video file."`. -/
theorem c6_classifier_precedence (m : Message) :
    (∀ d, m.document = some d → classify m = ⟨AKind.document, d.file_name⟩) ∧
    (m.document = none → m.video = true →
      classify m = ⟨AKind.video, "Video file."⟩) ∧
    (m.document = none → m.video = false → m.photo = true →
      classify m = ⟨AKind.photo, ""⟩) ∧
    (m.document = none → m.video = false → m.photo = false →
      classify m = ⟨AKind.unsupported, ""⟩) := by
  refine ⟨?_, ?_, ?_, ?_⟩ <;> intros <;> simp [classify, *]

/-- C6 at concrete inputs, one per precedence branch (the first message
carries a document, a video and a photo at once and is classified as a
document). -/
theorem c6_classifier_precedence_witness :
    classify ⟨none, some ⟨"report.pdf", "application/pdf"⟩, true, true, "p"⟩ =
      ⟨AKind.document, "report.pdf"⟩ ∧
    classify ⟨none, none, true, true, "p"⟩ = ⟨AKind.video, "Video file."⟩ ∧
    classify photoMsg = ⟨AKind.photo, ""⟩ ∧
    classify ⟨none, none, false, false, ""⟩ = ⟨AKind.unsupported, ""⟩ :=
  ⟨(c6_classifier_precedence _).1 ⟨"report.pdf", "application/pdf"⟩ rfl,
    (c6_classifier_precedence _).2.1 rfl rfl,
    (c6_classifier_precedence _).2.2.1 rfl rfl rfl,
    (c6_classifier_precedence _).2.2.2 rfl rfl rfl⟩

/-- C3: for an attachment classified as Document or Video and handled with a
bound uploader, exactly one backend upload call is issued and the local
temporary copy is removed immediately after the call, on every exit path,
whatever Boolean the upload returns (the uploader's cleanup lives in
`storages.py` and is modelled from the spec). -/
theorem c3_temp_file_removed (oracle : Backend → String → Bool) (m : Message)
    (uid : Int) (uname : String) (b : Backend)
    (h : (∃ d, m.document = some d) ∨ (m.document = none ∧ m.video = true)) :
    ((upload_file oracle m uid uname (some b)).effects.filter isUploadCallEff) =
      [Effect.uploadCall b m.downloadPath] ∧
    ∃ pre post, (upload_file oracle m uid uname (some b)).effects =
      pre ++ Effect.uploadCall b m.downloadPath ::
        Effect.removeLocal m.downloadPath :: post := by
  rw [upload_file_doc_or_video oracle m uid uname (some b) h, processFile_effects]
  constructor
  · cases ho : oracle b m.downloadPath <;> simp [ho, isUploadCallEff]
  · refine ⟨[Effect.download m.downloadPath,
        Effect.log ("File downloaded from " ++ user_info_text uname uid ++ ": " ++
          m.downloadPath),
        Effect.reply (receivedText (classify m).displayName)],
      (if oracle b m.downloadPath then [Effect.reply uploadedText] else []), ?_⟩
    simp

/-- C3 at a concrete input: an image document uploaded to S3 with a failing
upload outcome; the single upload call is still followed by the removal of
the temporary file. -/
theorem c3_temp_file_removed_witness :
    ((upload_file (fun _ _ => false) (docMsg "a.png" "image/png" "p7") 10 "Ann"
        (some Backend.S3)).effects.filter isUploadCallEff) =
      [Effect.uploadCall Backend.S3 "p7"] ∧
    ∃ pre post,
      (upload_file (fun _ _ => false) (docMsg "a.png" "image/png" "p7") 10 "Ann"
        (some Backend.S3)).effects =
      pre ++ Effect.uploadCall Backend.S3 "p7" ::
        Effect.removeLocal "p7" :: post :=
  c3_temp_file_removed (fun _ _ => false) (docMsg "a.png" "image/png" "p7") 10 "Ann"
    Backend.S3 (Or.inl ⟨⟨"a.png", "image/png"⟩, rfl⟩)

/-- C7: when the upload call for a routed Document or Video attachment
returns false, the success reply "File uploaded." is not sent (its absence
is the only failure signal), the session stays in `UPLOAD_FILE` with its
backend binding, and resending the same attachment triggers another upload
call. -/
theorem c7_upload_failure_silent (approved : Option (List Int))
    (oracle : Backend → String → Bool) (uid : Int) (uname : String)
    (b : Backend) (m : Message) (hroute : matchesUploadFilter m = true)
    (h : (∃ d, m.document = some d) ∨ (m.document = none ∧ m.video = true))
    (hfail : oracle b m.downloadPath = false) :
    Effect.reply uploadedText ∉
      (dispatch approved oracle uid uname
        ⟨some ConvState.UPLOAD_FILE, some b⟩ m).2 ∧
    (dispatch approved oracle uid uname
        ⟨some ConvState.UPLOAD_FILE, some b⟩ m).1 =
      ⟨some ConvState.UPLOAD_FILE, some b⟩ ∧
    Effect.uploadCall b m.downloadPath ∈
      (dispatch approved oracle uid uname
        ((dispatch approved oracle uid uname
          ⟨some ConvState.UPLOAD_FILE, some b⟩ m).1) m).2 := by
  have hst : dispatch approved oracle uid uname
      ⟨some ConvState.UPLOAD_FILE, some b⟩ m =
      (⟨some ConvState.UPLOAD_FILE, some b⟩,
        [Effect.download m.downloadPath,
          Effect.log ("File downloaded from " ++ user_info_text uname uid ++ ": " ++
            m.downloadPath),
          Effect.reply (receivedText (classify m).displayName),
          Effect.uploadCall b m.downloadPath,
          Effect.removeLocal m.downloadPath]) := by
    rw [dispatch]
    simp only [hroute, if_true]
    rw [upload_file_doc_or_video oracle m uid uname (some b) h]
    simp [processFile, uploader_upload_file, hfail, finishHandler, applyConv]
  refine ⟨?_, ?_, ?_⟩
  · rw [hst]
    have hne := receivedText_ne_uploadedText (classify m).displayName
    simp only [List.mem_cons, List.not_mem_nil, or_false]
    intro hmem
    rcases hmem with h1 | h1 | h1 | h1 | h1
    · exact Effect.noConfusion h1
    · exact Effect.noConfusion h1
    · injection h1 with h1
      exact hne h1.symm
    · exact Effect.noConfusion h1
    · exact Effect.noConfusion h1
  · rw [hst]
  · rw [hst]
    rw [hst]
    simp

/-- C7 at a concrete input: a video attachment whose GDrive upload returns
false. -/
theorem c7_upload_failure_silent_witness :
    Effect.reply uploadedText ∉
      (dispatch (some [10]) (fun _ _ => false) 10 "Ann"
        ⟨some ConvState.UPLOAD_FILE, some Backend.GDrive⟩ (videoMsg "v1")).2 ∧
    (dispatch (some [10]) (fun _ _ => false) 10 "Ann"
        ⟨some ConvState.UPLOAD_FILE, some Backend.GDrive⟩ (videoMsg "v1")).1 =
      ⟨some ConvState.UPLOAD_FILE, some Backend.GDrive⟩ ∧
    Effect.uploadCall Backend.GDrive "v1" ∈
      (dispatch (some [10]) (fun _ _ => false) 10 "Ann"
        ((dispatch (some [10]) (fun _ _ => false) 10 "Ann"
          ⟨some ConvState.UPLOAD_FILE, some Backend.GDrive⟩ (videoMsg "v1")).1)
        (videoMsg "v1")).2 :=
  c7_upload_failure_silent (some [10]) (fun _ _ => false) 10 "Ann"
    Backend.GDrive (videoMsg "v1") rfl (Or.inr ⟨rfl, rfl⟩) rfl

/-- C10: for a Document or Video attachment handled with a bound uploader,
the "File received." acknowledgment reply is emitted after the download and
before the backend upload call, for either upload outcome — so the receipt
is sent even when the upload returns false and never implies success. -/
theorem c10_receipt_before_upload (oracle : Backend → String → Bool)
    (m : Message) (uid : Int) (uname : String) (b : Backend)
    (h : (∃ d, m.document = some d) ∨ (m.document = none ∧ m.video = true)) :
    ∃ pre post, (upload_file oracle m uid uname (some b)).effects =
      pre ++ Effect.reply (receivedText (classify m).displayName) :: post ∧
      Effect.download m.downloadPath ∈ pre ∧
      Effect.uploadCall b m.downloadPath ∈ post := by
  rw [upload_file_doc_or_video oracle m uid uname (some b) h, processFile_effects]
  refine ⟨[Effect.download m.downloadPath,
      Effect.log ("File downloaded from " ++ user_info_text uname uid ++ ": " ++
        m.downloadPath)],
    Effect.uploadCall b m.downloadPath :: Effect.removeLocal m.downloadPath ::
      (if oracle b m.downloadPath then [Effect.reply uploadedText] else []),
    ?_, ?_, ?_⟩
  · simp
  · simp
  · simp

/-- C10 at a concrete input: an image document whose upload returns false
still produces the receipt between the download and the upload call. -/
theorem c10_receipt_before_upload_witness :
    ∃ pre post,
      (upload_file (fun _ _ => false) (docMsg "b.jpg" "image/jpeg" "p9") 10 "Ann"
        (some Backend.S3)).effects =
      pre ++ Effect.reply (receivedText "b.jpg") :: post ∧
      Effect.download "p9" ∈ pre ∧
      Effect.uploadCall Backend.S3 "p9" ∈ post :=
  c10_receipt_before_upload (fun _ _ => false) (docMsg "b.jpg" "image/jpeg" "p9")
    10 "Ann" Backend.S3 (Or.inl ⟨⟨"b.jpg", "image/jpeg"⟩, rfl⟩)

/-- C8: `/cancel` in any active session state replies with the farewell and
discards the session, and a subsequent attachment update (no text) from the
same user matches no handler, so it produces no effects at all — in
particular no download and no upload call. -/
theorem c8_cancel_discards_session (approved : Option (List Int))
    (oracle : Backend → String → Bool) (uid : Int) (uname : String)
    (cs : ConvState) (up : Option Backend) :
    Effect.reply farewellText ∈
      (dispatch approved oracle uid uname ⟨some cs, up⟩ (textMsg "/cancel")).2 ∧
    (dispatch approved oracle uid uname ⟨some cs, up⟩ (textMsg "/cancel")).1.conv =
      none ∧
    ∀ m2 : Message, m2.text = none →
      (dispatch approved oracle uid uname
        (dispatch approved oracle uid uname ⟨some cs, up⟩ (textMsg "/cancel")).1
        m2).2 = [] := by
  have h1 : matchesBackendRegex (textMsg "/cancel") = false := rfl
  have h2 : matchesUploadFilter (textMsg "/cancel") = false := rfl
  have h3 : isCommand "cancel" (textMsg "/cancel") = true := rfl
  have hdis : dispatch approved oracle uid uname ⟨some cs, up⟩ (textMsg "/cancel") =
      (⟨none, up⟩,
        [Effect.log ("User " ++ user_info_text uname uid ++ " canceled the conversation."),
          Effect.reply farewellText]) := by
    cases cs <;> simp [dispatch, h1, h2, h3, cancel, finishHandler, applyConv]
  refine ⟨?_, ?_, ?_⟩
  · rw [hdis]
    simp
  · rw [hdis]
  · intro m2 hm2
    rw [hdis]
    have hc : isCommand "start" m2 = false := by
      simp [isCommand, hm2]
    simp [dispatch, hc]

/-- C8 at a concrete input: `/cancel` from user 10 in `UPLOAD_FILE`, followed
by an inline photo. -/
theorem c8_cancel_discards_session_witness :
    Effect.reply farewellText ∈
      (dispatch (some [10]) (fun _ _ => true) 10 "Ann"
        ⟨some ConvState.UPLOAD_FILE, some Backend.S3⟩ (textMsg "/cancel")).2 ∧
    (dispatch (some [10]) (fun _ _ => true) 10 "Ann"
        ⟨some ConvState.UPLOAD_FILE, some Backend.S3⟩ (textMsg "/cancel")).1.conv =
      none ∧
    (dispatch (some [10]) (fun _ _ => true) 10 "Ann"
        (dispatch (some [10]) (fun _ _ => true) 10 "Ann"
          ⟨some ConvState.UPLOAD_FILE, some Backend.S3⟩ (textMsg "/cancel")).1
        photoMsg).2 = [] :=
  ⟨(c8_cancel_discards_session (some [10]) (fun _ _ => true) 10 "Ann"
      ConvState.UPLOAD_FILE (some Backend.S3)).1,
    (c8_cancel_discards_session (some [10]) (fun _ _ => true) 10 "Ann"
      ConvState.UPLOAD_FILE (some Backend.S3)).2.1,
    (c8_cancel_discards_session (some [10]) (fun _ _ => true) 10 "Ann"
      ConvState.UPLOAD_FILE (some Backend.S3)).2.2 photoMsg rfl⟩

end Run
